import Mathlib

/-!
Verification development for the FlowPulse scheduler/executor subsystem
(`pkg/scheduler`, file embedded from `src/unnamed/part_002`, and
`pkg/database/database.go`).

The Go code is shallowly embedded: structs become Lean structures, the
retry loop of `executeAPI` becomes a structurally recursive function whose
fuel argument is exactly the number of loop iterations still allowed by the
guard `attempt <= retryCount`, and the registry (`ScheduleJob` / `StopJob`)
becomes explicit state passing over association lists that play the role of
the two Go maps `jobEntries` and `intervalJobs`.  External collaborators
(the Store, `encoding/json`, `http.NewRequest`, the transport) are passed in
as explicit environment functions, since their code is outside this
repository.
-/

namespace FlowPulse

/-- Model of `models.API` (pkg/models): the fields the scheduler reads.
`CreatedAt`/`UpdatedAt`/`Name`/`Description`/`CollectionID` are never read by
the scheduler and are omitted. -/
structure API where
  ID : Int
  Method : String
  URL : String
  Headers : String
  Body : String
deriving Repr, DecidableEq

/-- Model of `models.Schedule`.  The field `Type'` stands for the Go field
`Type` ("cron" or "interval"); `Type` is a Lean keyword.  Go `int` fields are
modelled as `Int`. -/
structure Schedule where
  ID : Int
  APIID : Int
  Type' : String
  Expression : String
  IsActive : Bool
  RetryCount : Int
  FallbackDelay : Int
deriving Repr, DecidableEq

/-- Model of `models.ExecutionLog`: the fields written by
`SchedulerService.logExecution` (ID and ExecutedAt are filled in by the
database layer and are not modelled). -/
structure ExecutionLog where
  APIID : Int
  ScheduleID : Int
  StatusCode : Int
  Response : String
  Error : String
deriving Repr, DecidableEq

/-- Result of one `s.client.Do(req)` call inside `executeAPI`
(src/unnamed/part_002:227): either a transport-level failure (`err != nil`),
carrying the error text, or a completed HTTP response with its status code
and fully-read body. -/
inductive AttemptResult where
  | transportError (msg : String)
  | httpResponse (status : Int) (body : String)
deriving Repr, DecidableEq

/-- Environment of external effects used by `executeAPI`:
* `newRequestErr m u`: the error, if any, returned by `http.NewRequest(m, u, body)`
  (Go standard library, external to this repository);
* `jsonUnmarshalHeaders h`: the result of `json.Unmarshal([]byte(h), &headers)`
  into a `map[string]string` (external);
* `outcomes i`: what the shared HTTP client returns on the i-th attempt of
  the retry loop. -/
structure ExecEnv where
  newRequestErr : String → String → Option String
  jsonUnmarshalHeaders : String → Except String (List (String × String))
  outcomes : Nat → AttemptResult

/-- Embedding of `SchedulerService.prepareAPIRequest`
(src/unnamed/part_002:262-286): build the request via `http.NewRequest`,
then, when the headers string is non-empty, parse it as a JSON object of
string→string; a parse failure fails the build with the wrapped message
`failed to parse headers: ...`.  The successfully built request itself is
not needed by any claim, so the success value is `Unit`. -/
def prepareAPIRequest (env : ExecEnv) (api : API) : Except String Unit :=
  match env.newRequestErr api.Method api.URL with
  | some e => .error e
  | none =>
    if api.Headers ≠ "" then
      match env.jsonUnmarshalHeaders api.Headers with
      | .error e => .error ("failed to parse headers: " ++ e)
      | .ok _ => .ok ()
    else .ok ()

/-- The mutable locals of `executeAPI` (src/unnamed/part_002:205-206):
`var statusCode int; var responseBody, errMsg string` — all zero-valued at
entry. -/
structure ExecState where
  statusCode : Int
  responseBody : String
  errMsg : String
deriving Repr, DecidableEq

/-- Embedding of the retry loop of `executeAPI` (src/unnamed/part_002:220-255):
`for attempt := 0; attempt <= retryCount; attempt++ { ... }`.
The `fuel` argument is exactly the number of iterations the guard still
allows, i.e. `(retryCount + 1 - attempt).toNat`; `fuel = 0` is the guard
failing.  Inside the body:
* a completed response overwrites `responseBody` and `statusCode`; a 2xx
  status breaks out of the loop; a non-2xx status sets `errMsg` only when
  `attempt < retryCount` (i.e. on non-final attempts);
* a transport error sets `errMsg` on non-final attempts, and on the final
  attempt sets the "All retry attempts failed" message and resets
  `statusCode` to 0.
The second component of the result counts the attempts performed. -/
def retryLoopAux (outcomes : Nat → AttemptResult) (retryCount : Int) :
    Nat → Nat → ExecState → ExecState × Nat
  | 0, _, st => (st, 0)
  | fuel + 1, attempt, st =>
    match outcomes attempt with
    | .httpResponse s b =>
      let st1 : ExecState := { st with statusCode := s, responseBody := b }
      if 200 ≤ s ∧ s < 300 then (st1, 1)
      else
        let st2 : ExecState :=
          if (attempt : Int) < retryCount then
            { st1 with errMsg := "API returned non-success status code: " ++ toString s }
          else st1
        let r := retryLoopAux outcomes retryCount fuel (attempt + 1) st2
        (r.1, r.2 + 1)
    | .transportError e =>
      let st2 : ExecState :=
        if (attempt : Int) < retryCount then
          { st with errMsg := "Request failed: " ++ e }
        else
          { st with errMsg := "All retry attempts failed. Last error: " ++ e, statusCode := 0 }
      let r := retryLoopAux outcomes retryCount fuel (attempt + 1) st2
      (r.1, r.2 + 1)

/-- Embedding of `SchedulerService.executeAPI` (src/unnamed/part_002:204-259).
If request preparation fails, it immediately logs `(0, "", "Failed to prepare
request: ...")` and returns, having made zero attempts; otherwise it runs the
retry loop and logs the final `statusCode`/`responseBody`/`errMsg`.
The first component is the list of log records handed to `logExecution`
(always exactly one), the second the number of attempts performed. -/
def executeAPI (env : ExecEnv) (api : API) (schedule : Schedule) :
    List ExecutionLog × Nat :=
  match prepareAPIRequest env api with
  | .error e =>
    ([{ APIID := api.ID, ScheduleID := schedule.ID, StatusCode := 0, Response := "",
        Error := "Failed to prepare request: " ++ e }], 0)
  | .ok _ =>
    let r := retryLoopAux env.outcomes schedule.RetryCount
      (schedule.RetryCount + 1).toNat 0
      { statusCode := 0, responseBody := "", errMsg := "" }
    ([{ APIID := api.ID, ScheduleID := schedule.ID, StatusCode := r.1.statusCode,
        Response := r.1.responseBody, Error := r.1.errMsg }], r.2)

/-- An API target with no headers and no body, as a concrete test fixture. -/
def apiPlain : API :=
  { ID := 1, Method := "GET", URL := "http://example.test/ok", Headers := "", Body := "" }

/-- Schedule fixture with retryCount = 2 (claim C1's scenario). -/
def schedRetry2 : Schedule :=
  { ID := 10, APIID := 1, Type' := "interval", Expression := "5", IsActive := true,
    RetryCount := 2, FallbackDelay := 0 }

/-- Environment whose endpoint answers 500, 500, then 200. -/
def envTwo500ThenOk : ExecEnv :=
  { newRequestErr := fun _ _ => none
    jsonUnmarshalHeaders := fun _ => .ok []
    outcomes := fun i =>
      if i < 2 then .httpResponse 500 "server error page" else .httpResponse 200 "ok" }

/-- Schedule fixture with retryCount = 0 (claim C5's failing input). -/
def schedRetry0 : Schedule :=
  { ID := 11, APIID := 1, Type' := "interval", Expression := "5", IsActive := true,
    RetryCount := 0, FallbackDelay := 0 }

/-- Environment whose endpoint always answers 500. -/
def envAlways500 : ExecEnv :=
  { newRequestErr := fun _ _ => none
    jsonUnmarshalHeaders := fun _ => .ok []
    outcomes := fun _ => .httpResponse 500 "upstream failure body" }

/-- C1: with retryCount = 2 against an endpoint answering 500, 500, 200, the
code does perform exactly 3 attempts, stop at the third, and produce exactly
one log record with status 200 — but the log's error field is NOT the empty
string: `errMsg` is never cleared when a later attempt succeeds, so the stale
message "API returned non-success status code: 500" from the failed attempts
is logged together with the successful status.  This evaluation exhibits the
divergence from the claim (and from the spec's "error string (empty on
success)"). -/
theorem C1_retry_success_keeps_stale_error :
    executeAPI envTwo500ThenOk apiPlain schedRetry2 =
      ([{ APIID := 1, ScheduleID := 10, StatusCode := 200, Response := "ok",
          Error := "API returned non-success status code: 500" }], 3) ∧
    "API returned non-success status code: 500" ≠ "" := by
  constructor
  · decide
  · decide

/-- C5: with retryCount = 0 against an endpoint that always answers 500, the
code performs exactly 1 attempt and produces exactly one log record carrying
status 500 — but with an EMPTY error field: `errMsg` is only assigned on the
non-2xx path when `attempt < retryCount`, which is false on the single
(final) attempt, so the claim's "non-empty error field" fails at
retryCount = 0. -/
theorem C5_retry0_failure_logs_empty_error :
    executeAPI envAlways500 apiPlain schedRetry0 =
      ([{ APIID := 1, ScheduleID := 11, StatusCode := 500,
          Response := "upstream failure body", Error := "" }], 1) := by
  decide

/-- Model of `strconv.Atoi` (Go standard library, as called at
src/unnamed/part_002:113): an optional single `+`/`-` sign followed by a
non-empty run of ASCII digits, rejected when out of the 64-bit signed range;
anything else is a parse error (`none`). -/
def atoi (s : String) : Option Int :=
  let parseMag : List Char → Option Nat := fun cs =>
    if cs = [] then none
    else
      cs.foldl (fun acc c =>
        match acc with
        | none => none
        | some n => if '0' ≤ c ∧ c ≤ '9' then some (n * 10 + (c.toNat - '0'.toNat)) else none)
        (some 0)
  match s.data with
  | '-' :: rest =>
    match parseMag rest with
    | none => none
    | some n => if (n : Int) ≤ 2 ^ 63 then some (-(n : Int)) else none
  | '+' :: rest =>
    match parseMag rest with
    | none => none
    | some n => if (n : Int) ≤ 2 ^ 63 - 1 then some (n : Int) else none
  | cs =>
    match parseMag cs with
    | none => none
    | some n => if (n : Int) ≤ 2 ^ 63 - 1 then some (n : Int) else none

/-- The state recorded for one cron registration: the `cron.EntryID` returned
by `s.cron.AddFunc` and the `api`/`schedule` values captured by the closure
`func() { s.executeAPI(api, schedule) }` (src/unnamed/part_002:101-103). -/
structure CronEntry where
  entryID : Nat
  api : API
  schedule : Schedule
deriving Repr, DecidableEq

/-- The `IntervalJob` struct (src/unnamed/part_002:33-40) plus the `api` and
`schedule` arguments captured by `go s.runIntervalJob(job, api, schedule)`
(line 134).  `ticker` and `done` are runtime objects (a periodic timer and an
unbuffered channel); the parsed interval seconds and the running flag are the
data they carry here. -/
structure IntervalJob where
  scheduleID : Int
  apiID : Int
  intervalSec : Int
  isRunning : Bool
  api : API
  schedule : Schedule
deriving Repr, DecidableEq

/-- The registry state of `SchedulerService` (src/unnamed/part_002:22-30):
the Go maps `jobEntries : map[int]cron.EntryID` and
`intervalJobs : map[int]*IntervalJob` as association lists (Go map keys are
unique; uniqueness is proved as an invariant below), plus a counter for the
`cron.EntryID`s the shared cron driver hands out. -/
structure SchedulerState where
  jobEntries : List (Int × CronEntry)
  intervalJobs : List (Int × IntervalJob)
  nextEntryID : Nat
deriving Repr, DecidableEq

/-- `NewSchedulerService` (src/unnamed/part_002:43-56): both maps start empty. -/
def initialState : SchedulerState :=
  { jobEntries := [], intervalJobs := [], nextEntryID := 0 }

/-- Outcome of `ScheduleJob`: a normal `nil`/state return, an error return
(registry unchanged), or a runtime panic — `time.NewTicker` panics with
"non-positive interval for NewTicker" on durations ≤ 0, crashing the process
before any registry change. -/
inductive RegisterResult where
  | ok (st : SchedulerState)
  | err (msg : String)
  | panicked (msg : String)
deriving Repr, DecidableEq

/-- Embedding of `SchedulerService.ScheduleJob` (src/unnamed/part_002:75-140).
`store` models `s.db.GetAPIByID`; `cronParseOk` models whether the external
robfig/cron driver's `AddFunc` accepts the expression.  Control flow follows
the source: (1) the already-scheduled check is per kind — the `"cron"` branch
consults only `jobEntries`, every other type consults only `intervalJobs`,
and an existing entry returns `nil` with no change; (2) the API is fetched
from the store (failure returns an error); (3) dispatch on the type: `"cron"`
installs a cron entry and records the mapping; `"interval"` parses the
expression with `strconv.Atoi` (failure is the `invalid interval` error,
message text abstracted), then builds the `IntervalJob` literal whose
`ticker: time.NewTicker(interval)` panics when the parsed value is ≤ 0, then
records the mapping and starts the goroutine; any other type is the
`unsupported schedule type` error. -/
def ScheduleJob (store : Int → Except String API) (cronParseOk : String → Bool)
    (st : SchedulerState) (schedule : Schedule) : RegisterResult :=
  if schedule.Type' = "cron" then
    if (st.jobEntries.lookup schedule.ID).isSome then .ok st
    else
      match store schedule.APIID with
      | .error e => .err ("failed to get API: " ++ e)
      | .ok api =>
        if cronParseOk schedule.Expression then
          .ok { st with
            jobEntries := (schedule.ID,
              { entryID := st.nextEntryID, api := api, schedule := schedule }) :: st.jobEntries
            nextEntryID := st.nextEntryID + 1 }
        else .err "failed to add cron job: invalid cron expression"
  else
    if (st.intervalJobs.lookup schedule.ID).isSome then .ok st
    else
      match store schedule.APIID with
      | .error e => .err ("failed to get API: " ++ e)
      | .ok api =>
        if schedule.Type' = "interval" then
          match atoi schedule.Expression with
          | none => .err "invalid interval: parse error"
          | some n =>
            if n ≤ 0 then .panicked "non-positive interval for NewTicker"
            else .ok { st with
              intervalJobs := (schedule.ID,
                { scheduleID := schedule.ID, apiID := schedule.APIID, intervalSec := n,
                  isRunning := true, api := api, schedule := schedule }) :: st.intervalJobs }
        else .err ("unsupported schedule type: " ++ schedule.Type')

/-- Embedding of `SchedulerService.StopJob` (src/unnamed/part_002:143-166):
look in the cron mapping first (found: remove the trigger and drop the
entry), then in the interval mapping (found: signal `done`, stop the ticker,
drop the entry); found in neither, return the "job not found" error. -/
def StopJob (st : SchedulerState) (scheduleID : Int) : Except String SchedulerState :=
  if (st.jobEntries.lookup scheduleID).isSome then
    .ok { st with jobEntries := st.jobEntries.filter (fun p => !(p.1 == scheduleID)) }
  else if (st.intervalJobs.lookup scheduleID).isSome then
    .ok { st with intervalJobs := st.intervalJobs.filter (fun p => !(p.1 == scheduleID)) }
  else .error ("job not found for schedule ID: " ++ toString scheduleID)

/-- One management call in a call sequence (claim C2 quantifies over these). -/
inductive Op where
  | schedule (sched : Schedule)
  | stop (id : Int)
deriving Repr

/-- Effect of one call on the registry state.  Error returns leave the
registry untouched; a panic crashes the process, after which no further
registry change happens (modelled as the unchanged state — conservative for
state invariants). -/
def step (store : Int → Except String API) (cronParseOk : String → Bool)
    (st : SchedulerState) : Op → SchedulerState
  | .schedule sched =>
    match ScheduleJob store cronParseOk st sched with
    | .ok st' => st'
    | .err _ => st
    | .panicked _ => st
  | .stop id =>
    match StopJob st id with
    | .ok st' => st'
    | .error _ => st

/-- Run a sequence of management calls from the freshly-constructed registry. -/
def run (store : Int → Except String API) (cronParseOk : String → Bool)
    (ops : List Op) : SchedulerState :=
  ops.foldl (step store cronParseOk) initialState

/-- Number of entries a mapping holds for a given schedule id. -/
def countIn (l : List (Int × α)) (id : Int) : Nat :=
  (l.filter (fun p => p.1 == id)).length

/-- Total job handles for a schedule id, counting both mappings together
(the quantity claim C2 bounds by one). -/
def countHandles (st : SchedulerState) (id : Int) : Nat :=
  countIn st.jobEntries id + countIn st.intervalJobs id

/-- Store fixture resolving every api id to `apiPlain`. -/
def storeOneAPI : Int → Except String API := fun _ => .ok apiPlain

/-- Cron-driver fixture accepting every expression (e.g. `"* * * * * *"`). -/
def cronAlwaysOk : String → Bool := fun _ => true

/-- Interval schedule with expression "0" (claim C4's failing input). -/
def schedInterval0 : Schedule :=
  { ID := 3, APIID := 1, Type' := "interval", Expression := "0", IsActive := true,
    RetryCount := 0, FallbackDelay := 0 }

/-- C4: for the non-numeric expression "abc", `ScheduleJob` does return a
validation error with no side effect, as claimed; but for "0" and "-5" —
which the claim also covers — `strconv.Atoi` succeeds, and the code reaches
`time.NewTicker(time.Duration(0) * time.Second)`, which panics ("non-positive
interval for NewTicker") instead of returning a validation error: the code
crashes where the claim (and spec §7, "never fatal to the process") requires
an error return. -/
theorem C4_interval_zero_panics_instead_of_erroring :
    ScheduleJob storeOneAPI cronAlwaysOk initialState schedInterval0 =
      .panicked "non-positive interval for NewTicker" ∧
    ScheduleJob storeOneAPI cronAlwaysOk initialState
      { schedInterval0 with Expression := "-5" } =
      .panicked "non-positive interval for NewTicker" ∧
    ScheduleJob storeOneAPI cronAlwaysOk initialState
      { schedInterval0 with Expression := "abc" } =
      .err "invalid interval: parse error" := by
  refine ⟨?_, ?_, ?_⟩ <;> decide

/-- Interval schedule for id 1 (fixture for C2/C7). -/
def schedIntervalOne : Schedule :=
  { ID := 1, APIID := 1, Type' := "interval", Expression := "5", IsActive := true,
    RetryCount := 0, FallbackDelay := 0 }

/-- Cron schedule for the same id 1 (fixture for C2/C7). -/
def schedCronOne : Schedule :=
  { ID := 1, APIID := 1, Type' := "cron", Expression := "* * * * * *", IsActive := true,
    RetryCount := 0, FallbackDelay := 0 }

/-- Registry state after registering id 1 as an interval job. -/
def stAfterInterval : SchedulerState :=
  run storeOneAPI cronAlwaysOk [Op.schedule schedIntervalOne]

/-- Registry state after additionally registering id 1 as a cron job. -/
def stBothKinds : SchedulerState :=
  run storeOneAPI cronAlwaysOk
    [Op.schedule schedIntervalOne, Op.schedule schedCronOne]

/-- C2 counterexample: starting from the empty registry, registering id 1
with kind interval and then again with kind cron yields TWO live job handles
for the same schedule id (one in each mapping), because the
already-scheduled check of `ScheduleJob` only consults the mapping of the
incoming schedule's own kind.  The second call returns success AND creates a
new job, refuting both "at most one job handle per schedule id" and
"returns success without creating a new job regardless of the kind it was
first registered with". -/
theorem C2_counterexample_mixed_kinds_two_handles :
    countHandles stAfterInterval 1 = 1 ∧
    ScheduleJob storeOneAPI cronAlwaysOk stAfterInterval schedCronOne =
      RegisterResult.ok stBothKinds ∧
    countHandles stBothKinds 1 = 2 := by
  refine ⟨?_, ?_, ?_⟩ <;> decide

/-- C7 counterexample: in the reachable state where id 1 is registered in
both mappings (see `C2_counterexample_mixed_kinds_two_handles`), stopping
id 1 twice in a row SUCCEEDS both times — the first stop removes the cron
entry, the second removes the interval job — refuting "stopping the same
schedule id twice in a row fails the second time". -/
theorem C7_counterexample_double_stop_succeeds :
    ∃ st1 st2, StopJob stBothKinds 1 = .ok st1 ∧ StopJob st1 1 = .ok st2 := by
  exact ⟨_, _, rfl, rfl⟩

/-- What one tick of `runIntervalJob`'s loop does when the ticker fires
(src/unnamed/part_002:195-196): `s.executeAPI(api, schedule)` with the `api`
and `schedule` values captured when `ScheduleJob` started the goroutine —
the store is not consulted again. -/
def intervalTick (env : ExecEnv) (job : IntervalJob) : List ExecutionLog × Nat :=
  executeAPI env job.api job.schedule

/-- What a firing of the closure installed by `cron.AddFunc` does
(src/unnamed/part_002:101-103): `s.executeAPI(api, schedule)` with the
captured values. -/
def cronFire (env : ExecEnv) (entry : CronEntry) : List ExecutionLog × Nat :=
  executeAPI env entry.api entry.schedule

/-- The API target as stored before an edit (fixture for C3). -/
def apiOld : API :=
  { ID := 1, Method := "GET", URL := "http://old.test/a", Headers := "", Body := "" }

/-- The same API target after the user edits its URL (fixture for C3). -/
def apiNew : API :=
  { ID := 1, Method := "GET", URL := "http://new.test/a", Headers := "", Body := "" }

/-- Store contents at registration time. -/
def storeOld : Int → Except String API := fun _ => .ok apiOld

/-- Store contents after the edit. -/
def storeNew : Int → Except String API := fun _ => .ok apiNew

/-- Environment in which requests to the old URL fail to build and requests
to the new URL succeed with 200, making the captured-versus-fresh API
observable in the produced log. -/
def envDistinguish : ExecEnv :=
  { newRequestErr := fun _ u =>
      if u = "http://old.test/a" then some "unsupported protocol scheme" else none
    jsonUnmarshalHeaders := fun _ => .ok []
    outcomes := fun _ => .httpResponse 200 "ok" }

/-- C3 counterexample: register an interval schedule while the store holds
`apiOld`; then edit the store to `apiNew`.  The job's next tick still
executes the captured `apiOld` — `runIntervalJob` receives `api` as an
argument fetched once in `ScheduleJob` (src/unnamed/part_002:94,134) — and
its behaviour differs observably from executing the freshly-read `apiNew`,
refuting "read from the Store immediately before that run". -/
theorem C3_counterexample_stale_api_after_edit :
    ∃ st job,
      ScheduleJob storeOld cronAlwaysOk initialState schedIntervalOne = .ok st ∧
      st.intervalJobs.lookup 1 = some job ∧
      job.api = apiOld ∧
      storeNew 1 = .ok apiNew ∧
      apiOld ≠ apiNew ∧
      intervalTick envDistinguish job ≠ executeAPI envDistinguish apiNew schedIntervalOne := by
  refine ⟨_, _, rfl, rfl, rfl, rfl, by decide, by decide⟩

/-- Embedding of `DBService.CreateExecutionLog` (pkg/database/database.go:373-400):
before the INSERT, the response is truncated to its first 10,000 units plus
the marker `"... (truncated)"` when longer than 10,000, and the error
likewise with ceiling 5,000.  Go indexes bytes; the model indexes characters
(`String.take`), which coincide on ASCII.  The SQLite INSERT, generated ID
and `ExecutedAt` are external; the function returns the record as stored.
Truncation happens only here: the scheduler's `logExecution` passes the raw
strings through (`executeAPI` above produces them untruncated). -/
def CreateExecutionLog (lg : ExecutionLog) : ExecutionLog :=
  let lg1 : ExecutionLog :=
    if lg.Response.length > 10000 then
      { lg with Response := lg.Response.take 10000 ++ "... (truncated)" }
    else lg
  let lg2 : ExecutionLog :=
    if lg1.Error.length > 5000 then
      { lg1 with Error := lg1.Error.take 5000 ++ "... (truncated)" }
    else lg1
  lg2

/-- C8: the stored response is the first 10,000 characters plus the
truncation marker when the input is longer than 10,000, and the input
verbatim otherwise (no-op); the error field is treated the same way with
ceiling 5,000; all other fields are stored unchanged, and truncation is
applied exactly once, at this persistence boundary. -/
theorem C8_truncation_at_persistence_boundary :
    ∀ lg : ExecutionLog,
      ((CreateExecutionLog lg).Response =
        if lg.Response.length > 10000 then lg.Response.take 10000 ++ "... (truncated)"
        else lg.Response) ∧
      ((CreateExecutionLog lg).Error =
        if lg.Error.length > 5000 then lg.Error.take 5000 ++ "... (truncated)"
        else lg.Error) ∧
      (CreateExecutionLog lg).StatusCode = lg.StatusCode ∧
      (CreateExecutionLog lg).APIID = lg.APIID ∧
      (CreateExecutionLog lg).ScheduleID = lg.ScheduleID := by
  intro lg
  unfold CreateExecutionLog
  by_cases h1 : lg.Response.length > 10000 <;>
    by_cases h2 : lg.Error.length > 5000 <;>
      simp [h1, h2]

/-- Position of the goroutine running `runIntervalJob`
(src/unnamed/part_002:192-201): parked at the `select`, inside the
synchronous call `s.executeAPI(api, schedule)` (which contains the whole
retry loop, its `time.Sleep` fallback delays and the network waits), or
returned after receiving on `done`. -/
inductive JobLoopPos where
  | atSelect
  | executing
  | returned
deriving Repr, DecidableEq

/-- Transitions of that goroutine: a ticker fire moves it from the select
into `executeAPI` (on this same goroutine — no new goroutine is spawned per
execution); `executeAPI` returning brings it back to the select; receiving
on `done` at the select returns from `runIntervalJob`. -/
inductive JobStep : JobLoopPos → JobLoopPos → Prop where
  | tickFires : JobStep .atSelect .executing
  | execReturns : JobStep .executing .atSelect
  | doneReceived : JobStep .atSelect .returned

/-- Positions the goroutine can reach; it starts at the select. -/
inductive JobReachable : JobLoopPos → Prop where
  | start : JobReachable .atSelect
  | next {p q} : JobReachable p → JobStep p q → JobReachable q

/-- Whether the blocking send `job.done <- true` performed by `StopJob`
(src/unnamed/part_002:157, while holding `intervalMutex`) can complete:
`done` is unbuffered (`make(chan bool)`, line 125), so the send rendezvouses
only while the goroutine is parked at the select's `case <-job.done` — not
while it is inside `executeAPI`, and never after it returned. -/
def doneSendReady : JobLoopPos → Bool
  | .atSelect => true
  | .executing => false
  | .returned => false

/-- C9 counterexample: the goroutine reachably sits inside `executeAPI`
(after a ticker fire), and in that position the `done` send that `StopJob`
must perform cannot complete — so a `StopJob` call issued during an
in-flight execution is blocked waiting for the execution to finish,
refuting "never blocked waiting for an in-flight execution". -/
theorem C9_counterexample_stop_blocked_mid_execution :
    JobReachable JobLoopPos.executing ∧ doneSendReady JobLoopPos.executing = false :=
  ⟨JobReachable.next JobReachable.start JobStep.tickFires, rfl⟩

/-- C9 amended: executions do run on the interval job's own goroutine,
separate from the caller of `ScheduleJob`/`StopJob`; but `StopJob` signals
that goroutine with a blocking send on the unbuffered `done` channel, which
completes exactly when the goroutine is parked at its select point — and the
in-execution position is reachable, so a `StopJob` issued while an execution
is in flight waits for it to finish. -/
theorem C9_amended_done_send_requires_select :
    (∀ p, doneSendReady p = true ↔ p = JobLoopPos.atSelect) ∧
    JobReachable JobLoopPos.executing := by
  constructor
  · intro p
    cases p <;> simp [doneSendReady]
  · exact JobReachable.next JobReachable.start JobStep.tickFires

/-- A string with a non-empty left part is non-empty. -/
theorem append_ne_empty (s t : String) (hs : 0 < s.length) : s ++ t ≠ "" := by
  intro h
  have hl := congrArg String.length h
  rw [String.length_append] at hl
  have h0 : ("" : String).length = 0 := rfl
  rw [h0] at hl
  omega

/-- C6: when the headers string is non-empty and `json.Unmarshal` rejects it,
`executeAPI` fails while building the request — before any network attempt —
performs zero attempts, and produces exactly one log record with status code
0, empty body, and a populated (non-empty) error. -/
theorem C6_bad_headers_log_status0_zero_attempts :
    ∀ (env : ExecEnv) (api : API) (sched : Schedule) (e : String),
      api.Headers ≠ "" →
      env.jsonUnmarshalHeaders api.Headers = .error e →
      ∃ m, executeAPI env api sched =
          ([{ APIID := api.ID, ScheduleID := sched.ID, StatusCode := 0,
              Response := "", Error := m }], 0) ∧ m ≠ "" := by
  intro env api sched e hH hJ
  cases hN : env.newRequestErr api.Method api.URL with
  | some e0 =>
    refine ⟨"Failed to prepare request: " ++ e0, ?_, ?_⟩
    · simp [executeAPI, prepareAPIRequest, hN]
    · exact append_ne_empty _ _ (by decide)
  | none =>
    refine ⟨"Failed to prepare request: " ++ ("failed to parse headers: " ++ e), ?_, ?_⟩
    · simp [executeAPI, prepareAPIRequest, hN, hH, hJ]
    · exact append_ne_empty _ _ (by decide)

/-- API fixture whose headers string is not valid JSON. -/
def apiBadHeaders : API :=
  { ID := 2, Method := "GET", URL := "http://example.test/ok",
    Headers := "\x7bnot json", Body := "" }

/-- Environment in which `json.Unmarshal` rejects every headers string. -/
def envBadHeaders : ExecEnv :=
  { newRequestErr := fun _ _ => none
    jsonUnmarshalHeaders := fun _ => .error "invalid character n"
    outcomes := fun _ => .httpResponse 200 "ok" }

/-- Witness for `C6_bad_headers_log_status0_zero_attempts` at a concrete
malformed-headers API. -/
theorem C6_bad_headers_witness :
    ∃ m, executeAPI envBadHeaders apiBadHeaders schedRetry2 =
        ([{ APIID := 2, ScheduleID := 10, StatusCode := 0,
            Response := "", Error := m }], 0) ∧ m ≠ "" :=
  C6_bad_headers_log_status0_zero_attempts envBadHeaders apiBadHeaders schedRetry2
    "invalid character n" (by decide) rfl

/-- Symmetry of boolean equality on keys. -/
theorem beq_symm_int (a b : Int) : (a == b) = (b == a) := by
  by_cases h : a = b
  · subst h; rfl
  · have h1 : (a == b) = false := beq_eq_false_iff_ne.mpr h
    have h2 : (b == a) = false := beq_eq_false_iff_ne.mpr (Ne.symm h)
    rw [h1, h2]

/-- Counting in a cons cell. -/
theorem countIn_cons (k : Int) (v : α) (l : List (Int × α)) (id : Int) :
    countIn ((k, v) :: l) id = (if k = id then 1 else 0) + countIn l id := by
  by_cases h : k = id <;>
    simp [countIn, List.filter_cons, h, Nat.add_comm]

/-- A key absent from an association list is counted zero times. -/
theorem countIn_eq_zero_of_lookup_none (l : List (Int × α)) (id : Int)
    (h : List.lookup id l = none) : countIn l id = 0 := by
  induction l with
  | nil => rfl
  | cons hd tl ih =>
    obtain ⟨k, v⟩ := hd
    by_cases hk : id = k
    · subst hk
      simp [List.lookup] at h
    · have hne : (id == k) = false := beq_eq_false_iff_ne.mpr hk
      rw [List.lookup, hne] at h
      rw [countIn_cons, if_neg (fun hh => hk hh.symm), ih h]

/-- Filtering never increases the count for any key. -/
theorem countIn_filter_le (l : List (Int × α)) (q : Int × α → Bool) (id : Int) :
    countIn (l.filter q) id ≤ countIn l id := by
  unfold countIn
  exact ((l.filter_sublist (p := q)).filter _).length_le

/-- After deleting a key (Go `delete(m, id)`), looking it up finds nothing. -/
theorem lookup_filter_out_self (l : List (Int × α)) (id : Int) :
    List.lookup id (l.filter fun p => !(p.1 == id)) = none := by
  induction l with
  | nil => rfl
  | cons hd tl ih =>
    obtain ⟨k, v⟩ := hd
    by_cases hk : k = id
    · subst hk
      simp [List.filter_cons, ih]
    · have h1 : (k == id) = false := beq_eq_false_iff_ne.mpr hk
      have h2 : (id == k) = false := beq_eq_false_iff_ne.mpr (Ne.symm hk)
      simp [List.filter_cons, h1, List.lookup, h2, ih]

/-- Exhaustive description of the successful returns of `ScheduleJob`: either
an early idempotent return (state unchanged), or an insertion into exactly
one of the two mappings, guarded by that mapping not already containing the
schedule id. -/
theorem scheduleJob_ok_cases (store : Int → Except String API)
    (cronParseOk : String → Bool) (st : SchedulerState) (sched : Schedule)
    (st' : SchedulerState)
    (h : ScheduleJob store cronParseOk st sched = .ok st') :
    st' = st ∨
    (∃ api, List.lookup sched.ID st.jobEntries = none ∧
      st' = { st with
        jobEntries := (sched.ID,
          { entryID := st.nextEntryID, api := api, schedule := sched }) :: st.jobEntries
        nextEntryID := st.nextEntryID + 1 }) ∨
    (∃ api n, List.lookup sched.ID st.intervalJobs = none ∧
      st' = { st with
        intervalJobs := (sched.ID,
          { scheduleID := sched.ID, apiID := sched.APIID, intervalSec := n,
            isRunning := true, api := api, schedule := sched }) :: st.intervalJobs }) := by
  by_cases hT : sched.Type' = "cron"
  · cases hE : List.lookup sched.ID st.jobEntries with
    | some v =>
      left
      simp [ScheduleJob, hT, hE] at h
      exact h.symm
    | none =>
      cases hS : store sched.APIID with
      | error e => simp [ScheduleJob, hT, hE, hS] at h
      | ok api =>
        by_cases hC : cronParseOk sched.Expression
        · simp [ScheduleJob, hT, hE, hS, hC] at h
          exact Or.inr (Or.inl ⟨api, rfl, h.symm⟩)
        · simp [ScheduleJob, hT, hE, hS, hC] at h
  · cases hE : List.lookup sched.ID st.intervalJobs with
    | some v =>
      left
      simp [ScheduleJob, hT, hE] at h
      exact h.symm
    | none =>
      cases hS : store sched.APIID with
      | error e => simp [ScheduleJob, hT, hE, hS] at h
      | ok api =>
        by_cases hI : sched.Type' = "interval"
        · cases hA : atoi sched.Expression with
          | none => simp [ScheduleJob, hT, hE, hS, hI, hA] at h
          | some n =>
            by_cases hn : n ≤ 0
            · simp [ScheduleJob, hT, hE, hS, hI, hA, hn] at h
            · simp [ScheduleJob, hT, hE, hS, hI, hA, hn] at h
              exact Or.inr (Or.inr ⟨api, n, rfl, h.symm⟩)
        · simp [ScheduleJob, hT, hE, hS, hI] at h

/-- Exhaustive description of the successful returns of `StopJob`: removal
from the cron mapping (when the id is there), else removal from the interval
mapping (when the id is there). -/
theorem stopJob_ok_cases (st : SchedulerState) (id : Int) (st' : SchedulerState)
    (h : StopJob st id = .ok st') :
    ((List.lookup id st.jobEntries).isSome = true ∧
      st' = { st with jobEntries := st.jobEntries.filter fun p => !(p.1 == id) }) ∨
    (List.lookup id st.jobEntries = none ∧
      (List.lookup id st.intervalJobs).isSome = true ∧
      st' = { st with intervalJobs := st.intervalJobs.filter fun p => !(p.1 == id) }) := by
  cases hC : List.lookup id st.jobEntries with
  | some v =>
    left
    simp [StopJob, hC] at h
    exact ⟨by simp [hC], h.symm⟩
  | none =>
    cases hI : List.lookup id st.intervalJobs with
    | some v =>
      right
      simp [StopJob, hC, hI] at h
      exact ⟨rfl, by simp [hI], h.symm⟩
    | none => simp [StopJob, hC, hI] at h

/-- The per-mapping uniqueness invariant: each Go map holds at most one entry
per schedule id. -/
def InvUnique (st : SchedulerState) : Prop :=
  ∀ id, countIn st.jobEntries id ≤ 1 ∧ countIn st.intervalJobs id ≤ 1

/-- The fresh registry satisfies the invariant. -/
theorem invUnique_initial : InvUnique initialState := by
  intro id
  exact ⟨by simp [initialState, countIn], by simp [initialState, countIn]⟩

/-- `ScheduleJob` preserves per-mapping uniqueness. -/
theorem scheduleJob_ok_preserves (store : Int → Except String API)
    (cronParseOk : String → Bool) (st : SchedulerState) (sched : Schedule)
    (st' : SchedulerState) (hInv : InvUnique st)
    (h : ScheduleJob store cronParseOk st sched = .ok st') : InvUnique st' := by
  rcases scheduleJob_ok_cases store cronParseOk st sched st' h with
    rfl | ⟨api, hE, rfl⟩ | ⟨api, n, hE, rfl⟩
  · exact hInv
  · intro id
    refine ⟨?_, (hInv id).2⟩
    rw [countIn_cons]
    by_cases hid : sched.ID = id
    · subst hid
      rw [if_pos rfl, countIn_eq_zero_of_lookup_none _ _ hE]
    · rw [if_neg hid]
      simpa using (hInv id).1
  · intro id
    refine ⟨(hInv id).1, ?_⟩
    rw [countIn_cons]
    by_cases hid : sched.ID = id
    · subst hid
      rw [if_pos rfl, countIn_eq_zero_of_lookup_none _ _ hE]
    · rw [if_neg hid]
      simpa using (hInv id).2

/-- `StopJob` preserves per-mapping uniqueness. -/
theorem stopJob_ok_preserves (st : SchedulerState) (id0 : Int)
    (st' : SchedulerState) (hInv : InvUnique st)
    (h : StopJob st id0 = .ok st') : InvUnique st' := by
  rcases stopJob_ok_cases st id0 st' h with ⟨_, rfl⟩ | ⟨_, _, rfl⟩
  · intro id
    exact ⟨le_trans (countIn_filter_le _ _ _) (hInv id).1, (hInv id).2⟩
  · intro id
    exact ⟨(hInv id).1, le_trans (countIn_filter_le _ _ _) (hInv id).2⟩

/-- One management call preserves per-mapping uniqueness. -/
theorem step_preserves (store : Int → Except String API)
    (cronParseOk : String → Bool) (st : SchedulerState) (op : Op)
    (hInv : InvUnique st) : InvUnique (step store cronParseOk st op) := by
  cases op with
  | schedule sched =>
    cases hr : ScheduleJob store cronParseOk st sched with
    | ok st' =>
      simpa [step, hr] using
        scheduleJob_ok_preserves store cronParseOk st sched st' hInv hr
    | err m => simpa [step, hr] using hInv
    | panicked m => simpa [step, hr] using hInv
  | stop id =>
    cases hr : StopJob st id with
    | ok st' =>
      simpa [step, hr] using stopJob_ok_preserves st id st' hInv hr
    | error m => simpa [step, hr] using hInv

/-- Every state produced by a call sequence satisfies per-mapping uniqueness. -/
theorem run_invUnique (store : Int → Except String API)
    (cronParseOk : String → Bool) (ops : List Op) :
    InvUnique (run store cronParseOk ops) := by
  suffices hgen : ∀ (l : List Op) (st : SchedulerState), InvUnique st →
      InvUnique (l.foldl (step store cronParseOk) st) by
    exact hgen ops initialState invUnique_initial
  intro l
  induction l with
  | nil => intro st h; exact h
  | cons op tl ih =>
    intro st h
    exact ih _ (step_preserves store cronParseOk st op h)

/-- C2 amended: across every sequence of `ScheduleJob`/`StopJob` calls from
the empty registry, each of the two mappings holds at most one job handle per
schedule id (so at most one per id AND KIND, not per id alone), and a
`ScheduleJob` call whose schedule id already has a live job in the mapping
matching the incoming schedule's own kind returns success with the registry
unchanged (no new job).  The original claim's cross-kind guarantee fails:
see `C2_counterexample_mixed_kinds_two_handles`. -/
theorem C2_amended_per_kind_at_most_one_handle :
    (∀ (store : Int → Except String API) (cronParseOk : String → Bool)
        (ops : List Op) (id : Int),
      countIn (run store cronParseOk ops).jobEntries id ≤ 1 ∧
      countIn (run store cronParseOk ops).intervalJobs id ≤ 1) ∧
    (∀ (store : Int → Except String API) (cronParseOk : String → Bool)
        (st : SchedulerState) (sched : Schedule),
      (if sched.Type' = "cron" then (List.lookup sched.ID st.jobEntries).isSome = true
       else (List.lookup sched.ID st.intervalJobs).isSome = true) →
      ScheduleJob store cronParseOk st sched = .ok st) := by
  constructor
  · intro store cronParseOk ops id
    exact run_invUnique store cronParseOk ops id
  · intro store cronParseOk st sched hLive
    by_cases hT : sched.Type' = "cron"
    · rw [if_pos hT] at hLive
      simp [ScheduleJob, hT, hLive]
    · rw [if_neg hT] at hLive
      simp [ScheduleJob, hT, hLive]

/-- Witness for `C2_amended_per_kind_at_most_one_handle` at a concrete call
sequence and a concrete already-registered schedule. -/
theorem C2_amended_witness :
    (countIn stAfterInterval.jobEntries 1 ≤ 1 ∧
      countIn stAfterInterval.intervalJobs 1 ≤ 1) ∧
    ScheduleJob storeOneAPI cronAlwaysOk stAfterInterval schedIntervalOne =
      .ok stAfterInterval :=
  ⟨C2_amended_per_kind_at_most_one_handle.1 storeOneAPI cronAlwaysOk
      [Op.schedule schedIntervalOne] 1,
    C2_amended_per_kind_at_most_one_handle.2 storeOneAPI cronAlwaysOk
      stAfterInterval schedIntervalOne (by decide)⟩

/-- C7 amended: `StopJob` on an id present in neither mapping returns the
"job not found" error and leaves the registry (hence every other schedule's
job) unchanged; and stopping the same id twice in a row fails the second
time with that error whenever the id is registered in at most one of the two
mappings.  (If the id is registered in both — reachable via mixed-kind
registration, see `C7_counterexample_double_stop_succeeds` — the second stop
also succeeds.) -/
theorem C7_amended_stop_not_found :
    (∀ (st : SchedulerState) (store : Int → Except String API)
        (cronParseOk : String → Bool) (id : Int),
      List.lookup id st.jobEntries = none →
      List.lookup id st.intervalJobs = none →
      StopJob st id = .error ("job not found for schedule ID: " ++ toString id) ∧
      step store cronParseOk st (.stop id) = st) ∧
    (∀ (st st' : SchedulerState) (id : Int),
      ¬((List.lookup id st.jobEntries).isSome = true ∧
        (List.lookup id st.intervalJobs).isSome = true) →
      StopJob st id = .ok st' →
      StopJob st' id = .error ("job not found for schedule ID: " ++ toString id)) := by
  constructor
  · intro st store cronParseOk id h1 h2
    constructor
    · simp [StopJob, h1, h2]
    · simp [step, StopJob, h1, h2]
  · intro st st' id hnot hok
    rcases stopJob_ok_cases st id st' hok with ⟨hC, rfl⟩ | ⟨hC, hI, rfl⟩
    · have hI : List.lookup id st.intervalJobs = none := by
        cases hx : List.lookup id st.intervalJobs with
        | none => rfl
        | some v => exact absurd ⟨hC, by simp [hx]⟩ hnot
      simp [StopJob, lookup_filter_out_self, hI]
    · simp [StopJob, hC, lookup_filter_out_self]

/-- Witness for `C7_amended_stop_not_found`: stopping an unregistered id
fails without touching the registry, and after one successful stop of a
singly-registered id the second stop fails the same way. -/
theorem C7_amended_witness :
    (StopJob initialState 7 = .error "job not found for schedule ID: 7" ∧
      step storeOneAPI cronAlwaysOk initialState (.stop 7) = initialState) ∧
    StopJob initialState 1 = .error "job not found for schedule ID: 1" :=
  ⟨C7_amended_stop_not_found.1 initialState storeOneAPI cronAlwaysOk 7 rfl rfl,
    C7_amended_stop_not_found.2 stAfterInterval initialState 1 (by decide) (by rfl)⟩

/-- C3 amended: a successful registration stores, in the job handle (and in
the cron closure), the API value fetched from the Store at `ScheduleJob`
time; every later trigger of that job executes exactly that captured value,
for every later environment — so an edit to the API target takes effect only
after the job is stopped and rescheduled, not on the next trigger of an
already-running job.  The original claim's "read fresh from the Store
immediately before each run" fails: see
`C3_counterexample_stale_api_after_edit`. -/
theorem C3_amended_api_captured_at_registration :
    (∀ (store : Int → Except String API) (cronParseOk : String → Bool)
        (st : SchedulerState) (sched : Schedule) (api : API) (n : Int),
      sched.Type' = "interval" →
      List.lookup sched.ID st.intervalJobs = none →
      store sched.APIID = .ok api →
      atoi sched.Expression = some n →
      0 < n →
      ∃ st', ScheduleJob store cronParseOk st sched = .ok st' ∧
        ∃ job, List.lookup sched.ID st'.intervalJobs = some job ∧
          job.api = api ∧ job.schedule = sched ∧
          ∀ env, intervalTick env job = executeAPI env api sched) ∧
    (∀ (store : Int → Except String API) (cronParseOk : String → Bool)
        (st : SchedulerState) (sched : Schedule) (api : API),
      sched.Type' = "cron" →
      List.lookup sched.ID st.jobEntries = none →
      store sched.APIID = .ok api →
      cronParseOk sched.Expression = true →
      ∃ st', ScheduleJob store cronParseOk st sched = .ok st' ∧
        ∃ entry, List.lookup sched.ID st'.jobEntries = some entry ∧
          entry.api = api ∧ entry.schedule = sched ∧
          ∀ env, cronFire env entry = executeAPI env api sched) := by
  constructor
  · intro store cronParseOk st sched api n hT hL hS hA hn
    have hn' : ¬n ≤ 0 := not_le.mpr hn
    refine ⟨{ st with intervalJobs := (sched.ID,
        { scheduleID := sched.ID, apiID := sched.APIID, intervalSec := n,
          isRunning := true, api := api, schedule := sched }) :: st.intervalJobs },
      ?_, ?_⟩
    · simp [ScheduleJob, hT, hL, hS, hA, hn']
    · refine ⟨{ scheduleID := sched.ID, apiID := sched.APIID, intervalSec := n,
                isRunning := true, api := api, schedule := sched },
        ?_, rfl, rfl, fun env => rfl⟩
      simp [List.lookup]
  · intro store cronParseOk st sched api hT hL hS hC
    refine ⟨{ st with
        jobEntries := (sched.ID,
          { entryID := st.nextEntryID, api := api, schedule := sched }) :: st.jobEntries
        nextEntryID := st.nextEntryID + 1 }, ?_, ?_⟩
    · simp [ScheduleJob, hT, hL, hS, hC]
    · refine ⟨{ entryID := st.nextEntryID, api := api, schedule := sched },
        ?_, rfl, rfl, fun env => rfl⟩
      simp [List.lookup]

/-- Witness for `C3_amended_api_captured_at_registration` at a concrete
interval registration. -/
theorem C3_amended_witness :
    ∃ st', ScheduleJob storeOld cronAlwaysOk initialState schedIntervalOne = .ok st' ∧
      ∃ job, List.lookup (1 : Int) st'.intervalJobs = some job ∧
        job.api = apiOld ∧ job.schedule = schedIntervalOne ∧
        ∀ env, intervalTick env job = executeAPI env apiOld schedIntervalOne :=
  C3_amended_api_captured_at_registration.1 storeOld cronAlwaysOk initialState
    schedIntervalOne apiOld 5 rfl rfl rfl (by decide) (by decide)

/-- Whether one attempt's outcome keeps the retry loop going: a transport
error, or a completed response whose status is not in [200, 300). -/
def isFailure : AttemptResult → Bool
  | .transportError _ => true
  | .httpResponse s _ => !(decide (200 ≤ s ∧ s < 300))

/-- The body of the last completed response among the `f` attempts starting
at index `attempt`, defaulting to `dflt` when none completed — exactly how
the loop's `responseBody` variable evolves over failing attempts. -/
def lastBodyAux (outcomes : Nat → AttemptResult) : Nat → Nat → String → String
  | 0, _, dflt => dflt
  | f + 1, attempt, dflt =>
    match outcomes attempt with
    | .httpResponse _ b => lastBodyAux outcomes f (attempt + 1) b
    | .transportError _ => lastBodyAux outcomes f (attempt + 1) dflt

/-- One unfolding step of the retry loop when the current attempt completes
with a response. -/
theorem retryLoopAux_http (outcomes : Nat → AttemptResult) (rc : Int)
    (fuel attempt : Nat) (st : ExecState) (s : Int) (b : String)
    (hout : outcomes attempt = .httpResponse s b) :
    retryLoopAux outcomes rc (fuel + 1) attempt st =
      (if 200 ≤ s ∧ s < 300 then
        ({ st with statusCode := s, responseBody := b }, 1)
      else
        let st2 : ExecState :=
          if (attempt : Int) < rc then
            { st with statusCode := s, responseBody := b,
                      errMsg := "API returned non-success status code: " ++ toString s }
          else { st with statusCode := s, responseBody := b }
        let r := retryLoopAux outcomes rc fuel (attempt + 1) st2
        (r.1, r.2 + 1)) := by
  conv_lhs => rw [retryLoopAux]
  rw [hout]

/-- One unfolding step of the retry loop when the current attempt fails at
the transport level. -/
theorem retryLoopAux_transport (outcomes : Nat → AttemptResult) (rc : Int)
    (fuel attempt : Nat) (st : ExecState) (e : String)
    (hout : outcomes attempt = .transportError e) :
    retryLoopAux outcomes rc (fuel + 1) attempt st =
      (let st2 : ExecState :=
        if (attempt : Int) < rc then
          { st with errMsg := "Request failed: " ++ e }
        else
          { st with errMsg := "All retry attempts failed. Last error: " ++ e,
                    statusCode := 0 }
       let r := retryLoopAux outcomes rc fuel (attempt + 1) st2
       (r.1, r.2 + 1)) := by
  conv_lhs => rw [retryLoopAux]
  rw [hout]

/-- Running the retry loop when every non-final attempt fails and the final
attempt (index `n = retryCount`) is a transport error: the loop performs all
remaining attempts, ends with status 0, keeps the last completed body, and
carries the final transport message. -/
theorem retryLoop_exhaust_transport (outcomes : Nat → AttemptResult) (n : Nat)
    (e : String)
    (hFail : ∀ i, i < n → isFailure (outcomes i) = true)
    (hFin : outcomes n = .transportError e) :
    ∀ (fuel attempt : Nat) (st : ExecState),
      attempt + fuel = n + 1 → 1 ≤ fuel →
      retryLoopAux outcomes (n : Int) fuel attempt st =
        ({ statusCode := 0,
           responseBody := lastBodyAux outcomes (fuel - 1) attempt st.responseBody,
           errMsg := "All retry attempts failed. Last error: " ++ e }, fuel) := by
  intro fuel
  induction fuel with
  | zero => intro attempt st hsum h1; omega
  | succ f ih =>
    intro attempt st hsum _
    rcases f with _ | g
    · have ha : attempt = n := by omega
      subst ha
      rw [retryLoopAux_transport outcomes _ 0 attempt st e hFin]
      rw [if_neg (show ¬((attempt : Int) < (attempt : Int)) by omega)]
      simp [retryLoopAux, lastBodyAux]
    · have hattempt : attempt < n := by omega
      have hfa := hFail attempt hattempt
      cases hout : outcomes attempt with
      | httpResponse s b =>
        have hs : ¬(200 ≤ s ∧ s < 300) := by
          rw [hout] at hfa
          simp [isFailure] at hfa
          omega
        have hlt : (attempt : Int) < (n : Int) := by omega
        rw [retryLoopAux_http outcomes _ (g + 1) attempt st s b hout]
        rw [if_neg hs, if_pos hlt]
        have hih := ih (attempt + 1)
          { statusCode := s, responseBody := b,
            errMsg := "API returned non-success status code: " ++ toString s }
          (by omega) (by omega)
        simp only [hih]
        simp [lastBodyAux, hout]
      | transportError m =>
        have hlt : (attempt : Int) < (n : Int) := by omega
        rw [retryLoopAux_transport outcomes _ (g + 1) attempt st m hout]
        rw [if_pos hlt]
        have hih := ih (attempt + 1)
          { statusCode := st.statusCode, responseBody := st.responseBody,
            errMsg := "Request failed: " ++ m }
          (by omega) (by omega)
        simp only [hih]
        simp [lastBodyAux, hout]

/-- When every attempt in the window is a transport error, the last-body
accumulator keeps its default. -/
theorem lastBodyAux_all_transport (outcomes : Nat → AttemptResult) :
    ∀ (f attempt : Nat) (dflt : String),
      (∀ k, attempt ≤ k → k < attempt + f → ∃ m, outcomes k = .transportError m) →
      lastBodyAux outcomes f attempt dflt = dflt := by
  intro f
  induction f with
  | zero => intro attempt dflt _; rfl
  | succ g ih =>
    intro attempt dflt h
    obtain ⟨m, hm⟩ := h attempt (le_refl _) (by omega)
    simp only [lastBodyAux, hm]
    exact ih (attempt + 1) dflt fun k hk1 hk2 => h k (by omega) (by omega)

/-- When attempt `j` completed with body `b` and every later attempt in the
window is a transport error, the last-body accumulator yields `b`. -/
theorem lastBodyAux_last_response (outcomes : Nat → AttemptResult)
    (j : Nat) (s : Int) (b : String) (hj : outcomes j = .httpResponse s b) :
    ∀ (f attempt : Nat) (dflt : String),
      attempt ≤ j → j < attempt + f →
      (∀ k, j < k → k < attempt + f → ∃ m, outcomes k = .transportError m) →
      lastBodyAux outcomes f attempt dflt = b := by
  intro f
  induction f with
  | zero => intro attempt dflt h1 h2 _; omega
  | succ g ih =>
    intro attempt dflt h1 h2 htail
    by_cases haj : attempt = j
    · subst haj
      simp only [lastBodyAux, hj]
      exact lastBodyAux_all_transport outcomes g (attempt + 1) b
        fun k hk1 hk2 => htail k (by omega) (by omega)
    · cases hout : outcomes attempt with
      | httpResponse s0 b0 =>
        simp only [lastBodyAux, hout]
        exact ih (attempt + 1) b0 (by omega) (by omega)
          fun k hk1 hk2 => htail k hk1 (by omega)
      | transportError m =>
        simp only [lastBodyAux, hout]
        exact ih (attempt + 1) dflt (by omega) (by omega)
          fun k hk1 hk2 => htail k hk1 (by omega)

/-- C10: when at least one attempt completed with a (non-2xx) response —
attempt `j`, the last completed one — every attempt fails, and the final
attempt fails at the transport level, the single produced log record has
status code 0 (reset by the final transport failure) but still carries the
response body `b` read from that last completed earlier attempt: the body
variable is not cleared when the status is reset. -/
theorem C10_transport_final_keeps_last_completed_body :
    ∀ (env : ExecEnv) (api : API) (sched : Schedule) (n j : Nat)
      (e : String) (s : Int) (b : String),
      sched.RetryCount = (n : Int) →
      prepareAPIRequest env api = .ok () →
      (∀ i, i < n → isFailure (env.outcomes i) = true) →
      env.outcomes n = .transportError e →
      j < n →
      env.outcomes j = .httpResponse s b →
      (∀ k, j < k → k < n → ∃ m, env.outcomes k = .transportError m) →
      executeAPI env api sched =
        ([{ APIID := api.ID, ScheduleID := sched.ID, StatusCode := 0, Response := b,
            Error := "All retry attempts failed. Last error: " ++ e }], n + 1) := by
  intro env api sched n j e s b hRC hPrep hFail hFin hj hjResp htail
  have htoNat : ((n : Int) + 1).toNat = n + 1 := by omega
  have hlast : lastBodyAux env.outcomes n 0 "" = b :=
    lastBodyAux_last_response env.outcomes j s b hjResp n 0 "" (by omega) (by omega)
      fun k hk1 hk2 => htail k hk1 (by omega)
  simp only [executeAPI, hPrep, hRC, htoNat,
    retryLoop_exhaust_transport env.outcomes n e hFail hFin (n + 1) 0 _ (by omega)
      (by omega)]
  simp [hlast]

/-- Environment whose endpoint answers 500 once, then transport-fails twice. -/
def env500ThenTransport : ExecEnv :=
  { newRequestErr := fun _ _ => none
    jsonUnmarshalHeaders := fun _ => .ok []
    outcomes := fun i =>
      if i = 0 then .httpResponse 500 "half-baked body"
      else if i = 1 then .transportError "connection reset"
      else .transportError "connection refused" }

/-- Witness for `C10_transport_final_keeps_last_completed_body`: retryCount 2,
attempts 500 / transport / transport; the log keeps the attempt-0 body with
status 0. -/
theorem C10_witness :
    executeAPI env500ThenTransport apiPlain schedRetry2 =
      ([{ APIID := 1, ScheduleID := 10, StatusCode := 0, Response := "half-baked body",
          Error := "All retry attempts failed. Last error: connection refused" }], 3) :=
  C10_transport_final_keeps_last_completed_body env500ThenTransport apiPlain schedRetry2
    2 0 "connection refused" 500 "half-baked body" rfl rfl
    (by
      intro i hi
      rcases i with _ | _ | i
      · decide
      · decide
      · omega)
    rfl (by omega) rfl
    (by
      intro k hk1 hk2
      have hk : k = 1 := by omega
      subst hk
      exact ⟨"connection reset", rfl⟩)

end FlowPulse
